import Mathlib

/-!
Verification of the DSView cursor/measurement coordinate engine, shallowly
embedded from `src/DSView/pv/dock/measuredock.cpp`,
`src/DSView/pv/view/cursor.cpp` and `src/DSView/pv/view/view.h`.

Widget pointers are modelled by `Option String` carrying the widget's text
(`none` stands for a NULL pointer).  Functions whose implementation lives in
source files outside the shown tree (`view.cpp`, `logicsignal.cpp`,
`timemarker.cpp`, `measuredock.h` constants) are modelled from the spec and
say so in their doc comment.
-/

namespace DSView

/-- Decimal digit character, helper for modelling QString::number. -/
def decChar (d : Nat) : Char :=
  if d = 0 then '0'
  else if d = 1 then '1'
  else if d = 2 then '2'
  else if d = 3 then '3'
  else if d = 4 then '4'
  else if d = 5 then '5'
  else if d = 6 then '6'
  else if d = 7 then '7'
  else if d = 8 then '8'
  else '9'

/-- Decimal digits of n (most significant first), fuel-driven so the kernel
can evaluate it. -/
def natDigitsAux : Nat → Nat → List Char
  | 0, _ => []
  | fuel + 1, n =>
    if n < 10 then [decChar n]
    else natDigitsAux fuel (n / 10) ++ [decChar (n % 10)]

/-- Decimal digits of a natural number. -/
def natDigits (n : Nat) : List Char := natDigitsAux (n + 1) n

/-- QString::number for an unsigned value. -/
def natStr (n : Nat) : String := String.mk (natDigits n)

/-- QString::number for a signed 64-bit value: minus sign for negatives,
no sign for zero and positives. -/
def intStr (i : Int) : String :=
  if i < 0 then "-" ++ natStr i.natAbs else natStr i.natAbs

/-- QString::replace(QChar old, QChar nw): replaces every occurrence. -/
def replaceChar (old nw : Char) (s : String) : String :=
  String.mk (s.data.map (fun c => if c = old then nw else c))

/-- 2 to the 64, the modulus of the C++ uint64_t sample arithmetic. -/
def U64 : Nat := 18446744073709551616

/-- Interpretation of a uint64 bit pattern as a signed int64 (two's
complement), as happens when update_dist stores the wrapped uint64 difference
into `int64_t delta`. -/
def toInt64 (u : Nat) : Int :=
  if u < 9223372036854775808 then (u : Int) else (u : Int) - 18446744073709551616

/-- uint64 subtraction a - b, wrapping modulo 2 to the 64. -/
def usub64 (a b : Nat) : Nat := (a + (U64 - b % U64)) % U64

/-- `int64_t delta = get_cursor_samples(c1-1) - get_cursor_samples(c2-1)`
(measuredock.cpp lines 674-675): the subtraction happens in uint64 and the
wrapped result is reinterpreted as an int64. -/
def delta64 (a b : Nat) : Int := toInt64 (usub64 a b)

/-- Modelled from the spec: View::get_cursor_samples (view.cpp is not in src).
The Marker Registry keeps the markers ordered by display order; this returns
the sample index of the marker at 0-based position i of the active list. -/
def get_cursor_samples (samples : List Nat) (i : Int) : Nat :=
  samples.getD i.toNat 0

/-- Modelled from the spec: View::get_cm_delta (view.cpp is not in src)
formats the absolute time distance between the cursors at positions i1 and i2
with a leading "+" sign (update_dist later turns every "+" into "-" for a
negative delta).  The time-unit rendering is abstracted into the decimal
sample magnitude. -/
def get_cm_delta (samples : List Nat) (i1 i2 : Int) : String :=
  let s1 := get_cursor_samples samples i1
  let s2 := get_cursor_samples samples i2
  "+" ++ natStr (max s1 s2 - min s1 s2)

/-- The result text computed by MeasureDock::update_dist for a row whose two
references are bound (measuredock.cpp lines 673-681): the formatted time delta,
a slash, the signed sample delta; when the delta is negative every plus glyph
is replaced by a minus glyph. -/
def dist_result (samples : List Nat) (c1 c2 : Int) : String :=
  let delta := delta64 (get_cursor_samples samples (c1 - 1)) (get_cursor_samples samples (c2 - 1))
  let delta_text := get_cm_delta samples (c1 - 1) (c2 - 1) ++ "/" ++ intStr delta
  if delta < 0 then replaceChar '+' '-' delta_text else delta_text

/-- cursor_row_info (declared in measuredock.h): one measurement row.
cursor1/cursor2 are the bound display orders (-1 when unset), channelIndex the
probe-selector index of an edge row; startText/endText/rText carry the texts
of the start button, the end button and the result label, `none` standing for
a NULL widget pointer. -/
structure cursor_row_info where
  cursor1 : Int
  cursor2 : Int
  channelIndex : Int
  startText : Option String
  endText : Option String
  rText : Option String
  deriving DecidableEq, Repr, Inhabited

/-- Channel kinds; the SR_CHANNEL constants come from libsigrok, outside src. -/
inductive sr_channel_type where
  | LOGIC
  | DSO
  | ANALOG
  deriving DecidableEq, Repr

/-- One entry of SigSession::get_signals(): the facts update_edge reads from a
signal, together with the bit-level snapshot behind LogicSignal::edges
(`none` when the snapshot is absent). -/
structure SignalM where
  sigType : sr_channel_type
  enabled : Bool
  index : Int
  snapshot : Option (List Bool)
  deriving DecidableEq, Repr

/-- MeasureDock::update_probe_selector (lines 797-806): the probe combobox
lists the index of every enabled logic signal, in session order. -/
def probe_list (signals : List SignalM) : List Int :=
  (signals.filter (fun s => decide (s.sigType = sr_channel_type.LOGIC) && s.enabled)).map
    (fun s => s.index)

/-- The channel number update_edge reads from the row's probe combobox
(`inf.box->currentText().toInt()`): build_edge_pannel fills the box from
probe_list and selects entry channelIndex when it is in range; an
out-of-range index leaves the default selection (the first entry) and an
empty box yields text "", which toInt parses as 0 (Qt combobox semantics,
outside src). -/
def selected_channel (probes : List Int) (ci : Int) : Int :=
  if ci < 0 then 0
  else if h : ci.toNat < probes.length then probes.get ⟨ci.toNat, h⟩
  else
    match probes with
    | [] => 0
    | p :: _ => p

/-- Rising (low to high) transition count of the snapshot bits over the sample
interval from lo to hi, comparing each consecutive pair once. -/
def count_rising (bits : List Bool) (lo hi : Nat) : Nat :=
  ((List.range (hi - lo)).filter
    (fun k => !bits.getD (lo + k) false && bits.getD (lo + k + 1) false)).length

/-- Falling (high to low) transition count over the same interval. -/
def count_falling (bits : List Bool) (lo hi : Nat) : Nat :=
  ((List.range (hi - lo)).filter
    (fun k => bits.getD (lo + k) false && !bits.getD (lo + k + 1) false)).length

/-- Modelled from the spec: LogicSignal::edges (logicsignal.cpp is not in src)
scans the channel's bit-level snapshot over the interval from min(a,b) to
max(a,b) and counts rising and falling transitions; it reports failure when
the snapshot is absent. -/
def edges (snap : Option (List Bool)) (a b : Nat) : Option (Nat × Nat) :=
  match snap with
  | none => none
  | some bits =>
    some (count_rising bits (min a b) (max a b), count_falling bits (min a b) (max a b))

/-- The signal loop of MeasureDock::update_edge (lines 718-736): try each
enabled logic signal carrying the selected index until one edge scan
succeeds; every other signal is skipped. -/
def edge_scan (signals : List SignalM) (ch : Int) (a b : Nat) : Option (Nat × Nat) :=
  match signals with
  | [] => none
  | s :: rest =>
    if s.sigType = sr_channel_type.LOGIC ∧ s.enabled = true ∧ s.index = ch then
      match edges s.snapshot a b with
      | some rf => some rf
      | none => edge_scan rest ch a b
    else edge_scan rest ch a b

/-- The loop body of MeasureDock::update_dist (lines 652-685) for one row:
a bound reference strictly greater than the cursor count is cleared (set to -1
with its button text emptied); then the result label is set to the measured
text when both references remain bound, and to the single-space placeholder
otherwise. -/
def update_dist_row (samples : List Nat) (inf : cursor_row_info) : cursor_row_info :=
  let n : Int := (samples.length : Int)
  let c1 := if inf.cursor1 ≠ -1 ∧ inf.cursor1 > n then -1 else inf.cursor1
  let st := if inf.cursor1 ≠ -1 ∧ inf.cursor1 > n then some "" else inf.startText
  let c2 := if inf.cursor2 ≠ -1 ∧ inf.cursor2 > n then -1 else inf.cursor2
  let et := if inf.cursor2 ≠ -1 ∧ inf.cursor2 > n then some "" else inf.endText
  let res := if c1 ≠ -1 ∧ c2 ≠ -1 then dist_result samples c1 c2 else " "
  { inf with cursor1 := c1, cursor2 := c2, startText := st, endText := et, rText := some res }

/-- MeasureDock::update_dist (lines 644-686): the rows are processed in order;
a row with a NULL start button stops the loop (break), leaving it and every
later row untouched. -/
def update_dist (samples : List Nat) : List cursor_row_info → List cursor_row_info
  | [] => []
  | inf :: rest =>
    if inf.startText = none then inf :: rest
    else update_dist_row samples inf :: update_dist samples rest

/-- The edge-count text for a successful scan (lines 728-730): rising count,
falling count and their sum joined by slashes. -/
def edge_text (rf : Nat × Nat) : String :=
  natStr rf.1 ++ "/" ++ natStr rf.2 ++ "/" ++ natStr (rf.1 + rf.2)

/-- The loop body of MeasureDock::update_edge (lines 693-741) for one row:
stale references are cleared exactly as in update_dist; the edge scan runs
only when both references are bound, with the scan arguments being the sample
positions of cursor2 and cursor1; every failure path ends in the dash
placeholder text. -/
def update_edge_row (signals : List SignalM) (samples : List Nat)
    (inf : cursor_row_info) : cursor_row_info :=
  let n : Int := (samples.length : Int)
  let c1 := if inf.cursor1 ≠ -1 ∧ inf.cursor1 > n then -1 else inf.cursor1
  let st := if inf.cursor1 ≠ -1 ∧ inf.cursor1 > n then some "" else inf.startText
  let c2 := if inf.cursor2 ≠ -1 ∧ inf.cursor2 > n then -1 else inf.cursor2
  let et := if inf.cursor2 ≠ -1 ∧ inf.cursor2 > n then some "" else inf.endText
  let ch := selected_channel (probe_list signals) inf.channelIndex
  let scan :=
    if c1 ≠ -1 ∧ c2 ≠ -1 then
      edge_scan signals ch (get_cursor_samples samples (c2 - 1))
        (get_cursor_samples samples (c1 - 1))
    else none
  let res :=
    match scan with
    | some rf => edge_text rf
    | none => "-/-/-"
  { inf with cursor1 := c1, cursor2 := c2, startText := st, endText := et, rText := some res }

/-- The result text update_edge computes for one row, as a function of the
row's references and channel index (the same computation update_edge_row
stores into the result label). -/
def edge_result (signals : List SignalM) (samples : List Nat) (cur1 cur2 ci : Int) : String :=
  let n : Int := (samples.length : Int)
  let c1 := if cur1 ≠ -1 ∧ cur1 > n then -1 else cur1
  let c2 := if cur2 ≠ -1 ∧ cur2 > n then -1 else cur2
  let ch := selected_channel (probe_list signals) ci
  let scan :=
    if c1 ≠ -1 ∧ c2 ≠ -1 then
      edge_scan signals ch (get_cursor_samples samples (c2 - 1))
        (get_cursor_samples samples (c1 - 1))
    else none
  match scan with
  | some rf => edge_text rf
  | none => "-/-/-"

/-- MeasureDock::update_edge (lines 688-742), with the same break-on-NULL
loop shape as update_dist. -/
def update_edge (signals : List SignalM) (samples : List Nat) :
    List cursor_row_info → List cursor_row_info
  | [] => []
  | inf :: rest =>
    if inf.startText = none then inf :: rest
    else update_edge_row signals samples inf :: update_edge signals samples rest

/-- The zero-initialized row pushed by MeasureDock::add_dist_measure and
add_edge_measure (lines 352-361 and 519-528): unset references, channel 0,
NULL widget pointers. -/
def blank_row : cursor_row_info :=
  { cursor1 := -1, cursor2 := -1, channelIndex := 0,
    startText := none, endText := none, rText := none }

/-- MeasureDock::add_dist_measure (lines 346-368): appends a blank row while
the count is below Max_Measure_Limits (a constant declared in measuredock.h,
which is not in src; it enters as the maxLimits parameter). -/
def add_dist_measure (maxLimits : Nat) (rows : List cursor_row_info) : List cursor_row_info :=
  if rows.length < maxLimits then rows ++ [blank_row] else rows

/-- MeasureDock::add_edge_measure (lines 513-534): the same cap rule for the
edge row list. -/
def add_edge_measure (maxLimits : Nat) (rows : List cursor_row_info) : List cursor_row_info :=
  if rows.length < maxLimits then rows ++ [blank_row] else rows

/-- Modelled from the spec: removing the marker with display order k from the
registry (View::del_cursor, view.cpp is not in src): the marker leaves the
ordered list and the survivors are renumbered 1..N-1 by ascending position. -/
def remove_marker (samples : List Nat) (order : Nat) : List Nat :=
  samples.eraseIdx (order - 1)

/-- Acquisition modes; the LOGIC/DSO/ANALOG work-mode constants come from the
device layer outside src. -/
inductive work_mode where
  | LOGIC
  | DSO
  | ANALOG
  deriving DecidableEq, Repr

/-- cursor_opt_info (measuredock.h): one line of the cursors panel, modelled
by its attachment state and the position label text. -/
structure cursor_opt_info where
  attached : Bool
  infoText : String
  deriving DecidableEq, Repr, Inhabited

/-- row_list_item (measuredock.h): one mode's measurement row sets. -/
structure row_list_item where
  _mode_type : Option work_mode
  _dist_row_list : List cursor_row_info
  _edge_row_list : List cursor_row_info
  _opt_row_list : List cursor_opt_info
  deriving DecidableEq, Repr, Inhabited

/-- The _mode_rows array of MeasureDock (MODE_ROWS_LENGTH = 3 in the missing
measuredock.h: one row set per work mode). -/
structure MeasureDockState where
  rowsL : row_list_item
  rowsD : row_list_item
  rowsA : row_list_item
  deriving DecidableEq, Repr, Inhabited

/-- The environment the dock reads: the per-mode marker registries of the view
and the session's signal list. -/
structure EnvM where
  cursors : work_mode → List Nat
  signals : List SignalM

/-- The row set the index dex of get_mode_rows selects for a mode. -/
def mode_item (m : work_mode) (st : MeasureDockState) : row_list_item :=
  match m with
  | .LOGIC => st.rowsL
  | .DSO => st.rowsD
  | .ANALOG => st.rowsA

/-- Store one mode's row set back into the state. -/
def set_mode_item (m : work_mode) (it : row_list_item) (st : MeasureDockState) :
    MeasureDockState :=
  match m with
  | .LOGIC => { st with rowsL := it }
  | .DSO => { st with rowsD := it }
  | .ANALOG => { st with rowsA := it }

/-- The widget-pointer clearing get_mode_rows applies to each inactive
measurement row (lines 1026-1040). -/
def detach_row (r : cursor_row_info) : cursor_row_info :=
  { r with startText := none, endText := none, rText := none }

/-- get_mode_rows' treatment of one inactive mode's row set (lines 1018-1054):
measurement rows lose their widget bindings, cursor option rows are deleted
and cleared. -/
def detach_item (it : row_list_item) : row_list_item :=
  { it with
    _dist_row_list := it._dist_row_list.map detach_row,
    _edge_row_list := it._edge_row_list.map detach_row,
    _opt_row_list := [] }

/-- MeasureDock::get_mode_rows (lines 1003-1059): detaches every inactive
mode's rows and stamps the active set's mode type. -/
def get_mode_rows (m : work_mode) (st : MeasureDockState) : MeasureDockState :=
  let st1 :=
    match m with
    | .LOGIC => { st with rowsD := detach_item st.rowsD, rowsA := detach_item st.rowsA }
    | .DSO => { st with rowsL := detach_item st.rowsL, rowsA := detach_item st.rowsA }
    | .ANALOG => { st with rowsL := detach_item st.rowsL, rowsD := detach_item st.rowsD }
  set_mode_item m { mode_item m st1 with _mode_type := some m } st1

/-- The widget rebuild for one distance row in MeasureDock::build_dist_pannel
(lines 279-341): fresh buttons with empty text, the result label text copied
from the previous label when one was attached, then the bound references
printed onto the buttons. -/
def build_dist_row (r : cursor_row_info) : cursor_row_info :=
  { r with
    startText := some (if r.cursor1 ≠ -1 then intStr r.cursor1 else ""),
    endText := some (if r.cursor2 ≠ -1 then intStr r.cursor2 else ""),
    rText := some (match r.rText with | some t => t | none => "") }

/-- The widget rebuild for one edge row in MeasureDock::build_edge_pannel
(lines 412-489); the fresh buttons carry a single-space text and the probe
combobox is refilled, leaving channelIndex unchanged. -/
def build_edge_row (r : cursor_row_info) : cursor_row_info :=
  { r with
    startText := some (if r.cursor1 ≠ -1 then intStr r.cursor1 else " "),
    endText := some (if r.cursor2 ≠ -1 then intStr r.cursor2 else " "),
    rText := some (match r.rText with | some t => t | none => "") }

/-- MeasureDock::build_dist_pannel (lines 254-344) on the model state. -/
def build_dist_pannel (m : work_mode) (st : MeasureDockState) : MeasureDockState :=
  let st1 := get_mode_rows m st
  let it := mode_item m st1
  set_mode_item m { it with _dist_row_list := it._dist_row_list.map build_dist_row } st1

/-- MeasureDock::build_edge_pannel (lines 387-492) on the model state. -/
def build_edge_pannel (m : work_mode) (st : MeasureDockState) : MeasureDockState :=
  let st1 := get_mode_rows m st
  let it := mode_item m st1
  set_mode_item m { it with _edge_row_list := it._edge_row_list.map build_edge_row } st1

/-- Modelled from the spec: View::get_cm_time (view.cpp is not in src) formats
the time position of cursor i; abstracted into the decimal sample position. -/
def get_cm_time (samples : List Nat) (i : Nat) : String :=
  natStr (samples.getD i 0)

/-- The cursor position line shown by build_cursor_pannel and
update_cursor_info: time text, slash, sample count. -/
def cursor_pos_text (samples : List Nat) (i : Nat) : String :=
  get_cm_time samples i ++ "/" ++ natStr (samples.getD i 0)

/-- MeasureDock::build_cursor_pannel (lines 856-915): the option rows are
cleared and rebuilt, one per cursor of the active list. -/
def build_cursor_pannel (m : work_mode) (samples : List Nat) (st : MeasureDockState) :
    MeasureDockState :=
  let st1 := get_mode_rows m st
  let it := mode_item m st1
  set_mode_item m
    { it with
      _opt_row_list :=
        (List.range samples.length).map
          (fun i => { attached := true, infoText := cursor_pos_text samples i }) } st1

/-- MeasureDock::update_cursor_info (lines 744-766): when option rows exist,
refresh every attached row's position label (the source asserts that the row
and cursor counts agree, which holds after build_cursor_pannel). -/
def update_cursor_info (samples : List Nat) (lst : List cursor_opt_info) :
    List cursor_opt_info :=
  if lst.length = 0 then lst
  else
    lst.mapIdx (fun i row =>
      if row.attached then { row with infoText := cursor_pos_text samples i } else row)

/-- update_dist run on the dock state (fetches the active row set first, as
the source's call to get_mode_rows does). -/
def update_dist_state (m : work_mode) (env : EnvM) (st : MeasureDockState) : MeasureDockState :=
  let st1 := get_mode_rows m st
  let it := mode_item m st1
  set_mode_item m { it with _dist_row_list := update_dist (env.cursors m) it._dist_row_list } st1

/-- update_edge run on the dock state. -/
def update_edge_state (m : work_mode) (env : EnvM) (st : MeasureDockState) : MeasureDockState :=
  let st1 := get_mode_rows m st
  let it := mode_item m st1
  set_mode_item m
    { it with _edge_row_list := update_edge env.signals (env.cursors m) it._edge_row_list } st1

/-- update_cursor_info run on the dock state. -/
def update_cursor_info_state (m : work_mode) (env : EnvM) (st : MeasureDockState) :
    MeasureDockState :=
  let st1 := get_mode_rows m st
  let it := mode_item m st1
  set_mode_item m { it with _opt_row_list := update_cursor_info (env.cursors m) it._opt_row_list } st1

/-- MeasureDock::reCalc (lines 822-829): recompute every measurement of the
active mode. -/
def reCalc (m : work_mode) (env : EnvM) (st : MeasureDockState) : MeasureDockState :=
  update_cursor_info_state m env (update_edge_state m env (update_dist_state m env st))

/-- MeasureDock::reload (lines 226-242): on a mode switch the three panels of
the newly active mode are rebuilt and every measurement recomputed. -/
def reload (m : work_mode) (env : EnvM) (st : MeasureDockState) : MeasureDockState :=
  reCalc m env (build_cursor_pannel m (env.cursors m) (build_edge_pannel m (build_dist_pannel m st)))

/-- The combined effect of one reload on the active mode's row set: the mode
type is stamped, both measurement row lists are rebuilt and recomputed, and
the cursor option rows are rebuilt from the active cursor list. -/
def reload_item (env : EnvM) (m : work_mode) (it : row_list_item) : row_list_item :=
  { _mode_type := some m,
    _dist_row_list := update_dist (env.cursors m) (it._dist_row_list.map build_dist_row),
    _edge_row_list := update_edge env.signals (env.cursors m) (it._edge_row_list.map build_edge_row),
    _opt_row_list := update_cursor_info (env.cursors m)
      ((List.range (env.cursors m).length).map
        (fun i => { attached := true, infoText := cursor_pos_text (env.cursors m) i })) }

/-- The persistent data of a measurement row named by claim C9: the two bound
display orders, the selected channel index and the cached result text. -/
def row_data (r : cursor_row_info) : Int × Int × Int × Option String :=
  (r.cursor1, r.cursor2, r.channelIndex, r.rText)

/-- The persistent references of a measurement row (without the cached
result). -/
def row_refs (r : cursor_row_info) : Int × Int × Int :=
  (r.cursor1, r.cursor2, r.channelIndex)

/-- The distance-row and edge-row data of one mode's row set. -/
def item_data (it : row_list_item) :
    List (Int × Int × Int × Option String) × List (Int × Int × Int × Option String) :=
  (it._dist_row_list.map row_data, it._edge_row_list.map row_data)

/-- The distance-row and edge-row references of one mode's row set. -/
def item_refs (it : row_list_item) : List (Int × Int × Int) × List (Int × Int × Int) :=
  (it._dist_row_list.map row_refs, it._edge_row_list.map row_refs)

/-- A concrete environment used to witness the mode-switch claim: two logic
markers, one oscilloscope marker, no signals. -/
def env_witness : EnvM :=
  { cursors := fun m =>
      match m with
      | work_mode.LOGIC => [100, 200]
      | work_mode.DSO => [50]
      | work_mode.ANALOG => [],
    signals := [] }

/-- A concrete dock state used to witness the mode-switch claim: the logic
mode owns one distance row bound to orders 1 and 2 and one edge row bound to
order 1 only; the oscilloscope mode owns one distance row bound to order 1. -/
def st_witness : MeasureDockState :=
  { rowsL :=
      { _mode_type := none,
        _dist_row_list := [cursor_row_info.mk 1 2 0 (some "1") (some "2") (some "x")],
        _edge_row_list := [cursor_row_info.mk 1 (-1) 0 (some "1") (some " ") (some "y")],
        _opt_row_list := [] },
    rowsD :=
      { _mode_type := none,
        _dist_row_list := [cursor_row_info.mk 1 1 0 (some "1") (some "1") (some "z")],
        _edge_row_list := [],
        _opt_row_list := [] },
    rowsA :=
      { _mode_type := none, _dist_row_list := [], _edge_row_list := [], _opt_row_list := [] } }

/-- The data of the Cursor class relevant to the shown code: the sample index
(kept by the TimeMarker base) and the display order field. -/
structure CursorM where
  _index : Nat
  _order : Int
  deriving DecidableEq, Repr

/-- Cursor::Cursor (cursor.cpp lines 49-53): the TimeMarker(view, sampleIndex)
base construction stores the sample index and leaves _order at whatever value
the base construction produces (timemarker.cpp is not in src, so that value
enters as baseOrder); the constructor body then executes the self-assignment
`_order = _order`, so the order argument is never stored. -/
def Cursor_construct (baseOrder : Int) (order : Int) (sampleIndex : Nat) : CursorM :=
  { _index := sampleIndex, _order := baseOrder }

/-- Cursor::Offset (cursor.cpp line 45). -/
def Cursor_Offset : Int := 1

/-- Cursor::ArrowSize (cursor.cpp line 46). -/
def Cursor_ArrowSize : Int := 10

/-- A QRect by its x, y, width and height. -/
structure QRectM where
  x : Int
  y : Int
  w : Int
  h : Int
  deriving DecidableEq, Repr

/-- The C++ double-to-int truncation of (t - 0.5) appearing in the top
computation of get_label_rect (truncation toward zero). -/
def truncHalfLess (t : Int) : Int := if 1 ≤ t then t - 1 else t

/-- Modelled from the spec: View::index2pixel (view.cpp is not in src):
pixel = index / (sample_rate * scale) - x_offset, plus the trigger correction
when has_hoff, taken to an integer pixel. -/
def index2pixel (samplerate scale : ℚ) (x_offset : Int) (trig_hoff : ℚ)
    (index : Nat) (has_hoff : Bool) : Int :=
  Rat.floor ((index : ℚ) / (samplerate * scale) - (x_offset : ℚ) +
    (if has_hoff then trig_hoff else 0))

/-- Cursor::get_label_rect (cursor.cpp lines 55-75).  The view state enters as
arguments: cur_snap_samplerate, scale, x_offset, width and trig_hoff; rectH is
rect.height(), textW/textH the computed text size and padW/padH the
View::LabelPadding components (view.cpp is not in src, so the padding is a
parameter).  Returns the visible flag together with the label rectangle. -/
def get_label_rect (samplerate scale : ℚ) (x_offset width : Int) (trig_hoff : ℚ)
    (index : Nat) (rectH textW textH padW padH : Int) (has_hoff : Bool) :
    Bool × QRectM :=
  let samples_per_pixel : ℚ := samplerate * scale
  let cur_offset : ℚ := (index : ℚ) / samples_per_pixel
  if cur_offset < (x_offset : ℚ) ∨ cur_offset > (x_offset : ℚ) + (width : ℚ) then
    (false, { x := -1, y := -1, w := 0, h := 0 })
  else
    let x := index2pixel samplerate scale x_offset trig_hoff index has_hoff
    let lw := textW + padW * 2
    let lh := textH + padH * 2
    let top := truncHalfLess (rectH - lh - Cursor_Offset - Cursor_ArrowSize)
    (true, { x := x - lw / 2, y := top, w := lw, h := lh })

/-- The sign-glyph discipline claimed for a formatted delta text: a positive
delta shows a single leading plus and no minus anywhere, a negative delta a
leading minus and no plus anywhere, so the two glyph kinds never appear
together. -/
def sign_glyphs_ok (delta : Int) (t : String) : Prop :=
  (0 < delta → t.data.head? = some '+' ∧ '-' ∉ t.data) ∧
  (delta < 0 → t.data.head? = some '-' ∧ '+' ∉ t.data)

/-- The per-row cleanup behaviour of update_dist for a row r turning into r2:
a bound reference strictly above the cursor count is cleared (slot -1, button
text emptied) and the row shows the single-space placeholder; any other slot
keeps its reference and button text; a row with an unset slot shows the
placeholder; a row whose references are bound and within the count gets the
recomputed distance result; the channel index is untouched. -/
def dist_cleanup_contract (samples : List Nat) (r r2 : cursor_row_info) : Prop :=
  ((r.cursor1 ≠ -1 ∧ r.cursor1 > (samples.length : Int)) →
    r2.cursor1 = -1 ∧ r2.startText = some "" ∧ r2.rText = some " ") ∧
  (¬(r.cursor1 ≠ -1 ∧ r.cursor1 > (samples.length : Int)) →
    r2.cursor1 = r.cursor1 ∧ r2.startText = r.startText) ∧
  ((r.cursor2 ≠ -1 ∧ r.cursor2 > (samples.length : Int)) →
    r2.cursor2 = -1 ∧ r2.endText = some "" ∧ r2.rText = some " ") ∧
  (¬(r.cursor2 ≠ -1 ∧ r.cursor2 > (samples.length : Int)) →
    r2.cursor2 = r.cursor2 ∧ r2.endText = r.endText) ∧
  ((r.cursor1 = -1 ∨ r.cursor2 = -1) → r2.rText = some " ") ∧
  ((r.cursor1 ≠ -1 ∧ ¬ r.cursor1 > (samples.length : Int) ∧
    r.cursor2 ≠ -1 ∧ ¬ r.cursor2 > (samples.length : Int)) →
    r2.rText = some (dist_result samples r.cursor1 r.cursor2)) ∧
  r2.channelIndex = r.channelIndex

/-- The per-row cleanup behaviour of update_edge, mirroring
dist_cleanup_contract with the dash placeholder and the edge result. -/
def edge_cleanup_contract (signals : List SignalM) (samples : List Nat)
    (r r2 : cursor_row_info) : Prop :=
  ((r.cursor1 ≠ -1 ∧ r.cursor1 > (samples.length : Int)) →
    r2.cursor1 = -1 ∧ r2.startText = some "" ∧ r2.rText = some "-/-/-") ∧
  (¬(r.cursor1 ≠ -1 ∧ r.cursor1 > (samples.length : Int)) →
    r2.cursor1 = r.cursor1 ∧ r2.startText = r.startText) ∧
  ((r.cursor2 ≠ -1 ∧ r.cursor2 > (samples.length : Int)) →
    r2.cursor2 = -1 ∧ r2.endText = some "" ∧ r2.rText = some "-/-/-") ∧
  (¬(r.cursor2 ≠ -1 ∧ r.cursor2 > (samples.length : Int)) →
    r2.cursor2 = r.cursor2 ∧ r2.endText = r.endText) ∧
  ((r.cursor1 = -1 ∨ r.cursor2 = -1) → r2.rText = some "-/-/-") ∧
  r2.rText = some (edge_result signals samples r.cursor1 r.cursor2 r.channelIndex) ∧
  r2.channelIndex = r.channelIndex

/-! Helper lemmas about the decimal printer and the string model. -/

theorem decChar_no_sign (d : Nat) : decChar d ≠ '+' ∧ decChar d ≠ '-' := by
  unfold decChar
  split_ifs <;> exact ⟨by decide, by decide⟩

theorem natDigitsAux_no_sign (fuel : Nat) :
    ∀ (n : Nat) (c : Char), c ∈ natDigitsAux fuel n → c ≠ '+' ∧ c ≠ '-' := by
  induction fuel with
  | zero => intro n c hc; simp [natDigitsAux] at hc
  | succ f ih =>
    intro n c hc
    unfold natDigitsAux at hc
    by_cases h : n < 10
    · simp only [h, if_true, List.mem_singleton] at hc
      subst hc
      exact decChar_no_sign n
    · simp only [h, if_false, List.mem_append, List.mem_singleton] at hc
      rcases hc with hc | hc
      · exact ih _ _ hc
      · subst hc
        exact decChar_no_sign (n % 10)

theorem natStr_no_sign (n : Nat) (c : Char) (hc : c ∈ (natStr n).data) :
    c ≠ '+' ∧ c ≠ '-' :=
  natDigitsAux_no_sign (n + 1) n c hc

theorem string_data_append (s t : String) : (s ++ t).data = s.data ++ t.data := rfl

theorem replaceChar_data (old nw : Char) (s : String) :
    (replaceChar old nw s).data = s.data.map (fun c => if c = old then nw else c) := rfl

theorem plus_not_mem_map_plus (l : List Char) :
    '+' ∉ l.map (fun c => if c = '+' then '-' else c) := by
  intro h
  simp only [List.mem_map] at h
  rcases h with ⟨c, _, he⟩
  by_cases hc2 : c = '+'
  · simp [hc2] at he
  · simp [hc2] at he

theorem natDigits_no_sign (n : Nat) (c : Char) (hc : c ∈ natDigits n) :
    c ≠ '+' ∧ c ≠ '-' :=
  natDigitsAux_no_sign (n + 1) n c hc

/-! Helper lemmas about the wrapped 64-bit delta. -/

theorem usub64_lt (a b : Nat) : usub64 a b < U64 := by
  unfold usub64 U64
  omega

theorem usub64_of_le (a b : Nat) (ha : a < U64) (hb : b < U64) (h : b ≤ a) :
    usub64 a b = a - b := by
  unfold usub64 U64 at *
  omega

theorem usub64_of_gt (a b : Nat) (ha : a < U64) (hb : b < U64) (h : a < b) :
    usub64 a b = U64 - (b - a) := by
  unfold usub64 U64 at *
  omega

/-! Helper lemmas for the per-row update functions. -/

theorem update_dist_row_rText (samples : List Nat) (inf : cursor_row_info) :
    (update_dist_row samples inf).rText =
      some (if (if inf.cursor1 ≠ -1 ∧ inf.cursor1 > (samples.length : Int) then -1 else inf.cursor1) ≠ -1 ∧
               (if inf.cursor2 ≠ -1 ∧ inf.cursor2 > (samples.length : Int) then -1 else inf.cursor2) ≠ -1 then
              dist_result samples
                (if inf.cursor1 ≠ -1 ∧ inf.cursor1 > (samples.length : Int) then -1 else inf.cursor1)
                (if inf.cursor2 ≠ -1 ∧ inf.cursor2 > (samples.length : Int) then -1 else inf.cursor2)
            else " ") := rfl

theorem update_dist_row_cursor1 (samples : List Nat) (inf : cursor_row_info) :
    (update_dist_row samples inf).cursor1 =
      if inf.cursor1 ≠ -1 ∧ inf.cursor1 > (samples.length : Int) then -1 else inf.cursor1 := rfl

theorem update_dist_row_cursor2 (samples : List Nat) (inf : cursor_row_info) :
    (update_dist_row samples inf).cursor2 =
      if inf.cursor2 ≠ -1 ∧ inf.cursor2 > (samples.length : Int) then -1 else inf.cursor2 := rfl

theorem update_dist_row_startText (samples : List Nat) (inf : cursor_row_info) :
    (update_dist_row samples inf).startText =
      if inf.cursor1 ≠ -1 ∧ inf.cursor1 > (samples.length : Int) then some "" else inf.startText := rfl

theorem update_dist_row_endText (samples : List Nat) (inf : cursor_row_info) :
    (update_dist_row samples inf).endText =
      if inf.cursor2 ≠ -1 ∧ inf.cursor2 > (samples.length : Int) then some "" else inf.endText := rfl

theorem update_dist_row_channelIndex (samples : List Nat) (inf : cursor_row_info) :
    (update_dist_row samples inf).channelIndex = inf.channelIndex := rfl

theorem update_edge_row_cursor1 (signals : List SignalM) (samples : List Nat)
    (inf : cursor_row_info) :
    (update_edge_row signals samples inf).cursor1 =
      if inf.cursor1 ≠ -1 ∧ inf.cursor1 > (samples.length : Int) then -1 else inf.cursor1 := rfl

theorem update_edge_row_cursor2 (signals : List SignalM) (samples : List Nat)
    (inf : cursor_row_info) :
    (update_edge_row signals samples inf).cursor2 =
      if inf.cursor2 ≠ -1 ∧ inf.cursor2 > (samples.length : Int) then -1 else inf.cursor2 := rfl

theorem update_edge_row_startText (signals : List SignalM) (samples : List Nat)
    (inf : cursor_row_info) :
    (update_edge_row signals samples inf).startText =
      if inf.cursor1 ≠ -1 ∧ inf.cursor1 > (samples.length : Int) then some "" else inf.startText := rfl

theorem update_edge_row_endText (signals : List SignalM) (samples : List Nat)
    (inf : cursor_row_info) :
    (update_edge_row signals samples inf).endText =
      if inf.cursor2 ≠ -1 ∧ inf.cursor2 > (samples.length : Int) then some "" else inf.endText := rfl

theorem update_edge_row_channelIndex (signals : List SignalM) (samples : List Nat)
    (inf : cursor_row_info) :
    (update_edge_row signals samples inf).channelIndex = inf.channelIndex := rfl

theorem update_edge_row_rText (signals : List SignalM) (samples : List Nat)
    (inf : cursor_row_info) :
    (update_edge_row signals samples inf).rText =
      some (edge_result signals samples inf.cursor1 inf.cursor2 inf.channelIndex) := rfl

theorem update_dist_eq_map (samples : List Nat) :
    ∀ rows : List cursor_row_info, (∀ r ∈ rows, r.startText ≠ none) →
      update_dist samples rows = rows.map (update_dist_row samples) := by
  intro rows
  induction rows with
  | nil => intro _; rfl
  | cons r rest ih =>
    intro h
    simp only [update_dist, List.map_cons]
    rw [if_neg (h r (List.mem_cons_self r rest))]
    rw [ih (fun x hx => h x (List.mem_cons_of_mem r hx))]

theorem update_edge_eq_map (signals : List SignalM) (samples : List Nat) :
    ∀ rows : List cursor_row_info, (∀ r ∈ rows, r.startText ≠ none) →
      update_edge signals samples rows = rows.map (update_edge_row signals samples) := by
  intro rows
  induction rows with
  | nil => intro _; rfl
  | cons r rest ih =>
    intro h
    simp only [update_edge, List.map_cons]
    rw [if_neg (h r (List.mem_cons_self r rest))]
    rw [ih (fun x hx => h x (List.mem_cons_of_mem r hx))]

theorem getD_map_row (f : cursor_row_info → cursor_row_info) (l : List cursor_row_info)
    (i : Nat) (hi : i < l.length) :
    (l.map f).getD i blank_row = f (l.getD i blank_row) := by
  rw [List.getD_eq_getElem?_getD, List.getD_eq_getElem?_getD, List.getElem?_map,
    List.getElem?_eq_getElem hi]
  rfl

theorem dist_row_update_spec (samples : List Nat) (r : cursor_row_info) :
    dist_cleanup_contract samples r (update_dist_row samples r) := by
  unfold dist_cleanup_contract
  refine ⟨?_, ?_, ?_, ?_, ?_, ?_, rfl⟩
  · intro hc
    refine ⟨?_, ?_, ?_⟩
    · rw [update_dist_row_cursor1, if_pos hc]
    · rw [update_dist_row_startText, if_pos hc]
    · rw [update_dist_row_rText, if_pos hc]
      simp
  · intro hc
    exact ⟨by rw [update_dist_row_cursor1, if_neg hc],
           by rw [update_dist_row_startText, if_neg hc]⟩
  · intro hc
    refine ⟨?_, ?_, ?_⟩
    · rw [update_dist_row_cursor2, if_pos hc]
    · rw [update_dist_row_endText, if_pos hc]
    · rw [update_dist_row_rText, if_pos hc]
      simp
  · intro hc
    exact ⟨by rw [update_dist_row_cursor2, if_neg hc],
           by rw [update_dist_row_endText, if_neg hc]⟩
  · intro hc
    rw [update_dist_row_rText]
    rcases hc with hc | hc <;> simp [hc]
  · intro hc
    have e1 : ¬(r.cursor1 ≠ -1 ∧ r.cursor1 > (samples.length : Int)) := by tauto
    have e2 : ¬(r.cursor2 ≠ -1 ∧ r.cursor2 > (samples.length : Int)) := by tauto
    rw [update_dist_row_rText, if_neg e1, if_neg e2, if_pos ⟨hc.1, hc.2.2.1⟩]

theorem edge_result_cleared (signals : List SignalM) (samples : List Nat)
    (cur1 cur2 ci : Int)
    (h : (if cur1 ≠ -1 ∧ cur1 > (samples.length : Int) then -1 else cur1) = -1 ∨
         (if cur2 ≠ -1 ∧ cur2 > (samples.length : Int) then -1 else cur2) = -1) :
    edge_result signals samples cur1 cur2 ci = "-/-/-" := by
  simp only [edge_result]
  rcases h with h | h <;> rw [h] <;> simp

theorem edge_row_update_spec (signals : List SignalM) (samples : List Nat)
    (r : cursor_row_info) :
    edge_cleanup_contract signals samples r (update_edge_row signals samples r) := by
  unfold edge_cleanup_contract
  refine ⟨?_, ?_, ?_, ?_, ?_, update_edge_row_rText signals samples r, rfl⟩
  · intro hc
    refine ⟨?_, ?_, ?_⟩
    · rw [update_edge_row_cursor1, if_pos hc]
    · rw [update_edge_row_startText, if_pos hc]
    · rw [update_edge_row_rText, edge_result_cleared]
      left
      rw [if_pos hc]
  · intro hc
    exact ⟨by rw [update_edge_row_cursor1, if_neg hc],
           by rw [update_edge_row_startText, if_neg hc]⟩
  · intro hc
    refine ⟨?_, ?_, ?_⟩
    · rw [update_edge_row_cursor2, if_pos hc]
    · rw [update_edge_row_endText, if_pos hc]
    · rw [update_edge_row_rText, edge_result_cleared]
      right
      rw [if_pos hc]
  · intro hc
    exact ⟨by rw [update_edge_row_cursor2, if_neg hc],
           by rw [update_edge_row_endText, if_neg hc]⟩
  · intro hc
    rw [update_edge_row_rText, edge_result_cleared]
    rcases hc with hc | hc
    · left
      rw [hc]
      simp
    · right
      rw [hc]
      simp

/-- C10: in the stale-reference cleanup of both update_dist and update_edge,
a bound reference is cleared (set to -1 with its button text emptied) exactly
when it is strictly greater than the current cursor count; every reference
less than or equal to the count, including one equal to the count after a
removal, is retained with its button text, and a fully retained row's result
is recomputed against the markers currently holding those display orders. -/
theorem C10_clear_only_above_count (signals : List SignalM) (samples : List Nat)
    (r : cursor_row_info) (h1 : r.cursor1 ≠ -1) (h2 : r.cursor2 ≠ -1) :
    ((update_dist_row samples r).cursor1 = -1 ↔ r.cursor1 > (samples.length : Int)) ∧
    ((update_dist_row samples r).cursor2 = -1 ↔ r.cursor2 > (samples.length : Int)) ∧
    ((update_edge_row signals samples r).cursor1 = -1 ↔ r.cursor1 > (samples.length : Int)) ∧
    ((update_edge_row signals samples r).cursor2 = -1 ↔ r.cursor2 > (samples.length : Int)) ∧
    (r.cursor1 > (samples.length : Int) →
      (update_dist_row samples r).startText = some "" ∧
      (update_edge_row signals samples r).startText = some "") ∧
    (r.cursor2 > (samples.length : Int) →
      (update_dist_row samples r).endText = some "" ∧
      (update_edge_row signals samples r).endText = some "") ∧
    (r.cursor1 ≤ (samples.length : Int) →
      (update_dist_row samples r).cursor1 = r.cursor1 ∧
      (update_dist_row samples r).startText = r.startText ∧
      (update_edge_row signals samples r).cursor1 = r.cursor1 ∧
      (update_edge_row signals samples r).startText = r.startText) ∧
    (r.cursor2 ≤ (samples.length : Int) →
      (update_dist_row samples r).cursor2 = r.cursor2 ∧
      (update_dist_row samples r).endText = r.endText ∧
      (update_edge_row signals samples r).cursor2 = r.cursor2 ∧
      (update_edge_row signals samples r).endText = r.endText) ∧
    (r.cursor1 ≤ (samples.length : Int) → r.cursor2 ≤ (samples.length : Int) →
      (update_dist_row samples r).rText = some (dist_result samples r.cursor1 r.cursor2) ∧
      (update_edge_row signals samples r).rText =
        some (edge_result signals samples r.cursor1 r.cursor2 r.channelIndex)) := by
  have hds := dist_row_update_spec samples r
  have hes := edge_row_update_spec signals samples r
  unfold dist_cleanup_contract at hds
  unfold edge_cleanup_contract at hes
  refine ⟨?_, ?_, ?_, ?_, ?_, ?_, ?_, ?_, ?_⟩
  · rw [update_dist_row_cursor1]
    split_ifs <;> omega
  · rw [update_dist_row_cursor2]
    split_ifs <;> omega
  · rw [update_edge_row_cursor1]
    split_ifs <;> omega
  · rw [update_edge_row_cursor2]
    split_ifs <;> omega
  · intro hgt
    exact ⟨(hds.1 ⟨h1, hgt⟩).2.1, (hes.1 ⟨h1, hgt⟩).2.1⟩
  · intro hgt
    exact ⟨(hds.2.2.1 ⟨h2, hgt⟩).2.1, (hes.2.2.1 ⟨h2, hgt⟩).2.1⟩
  · intro hle
    have hn : ¬(r.cursor1 ≠ -1 ∧ r.cursor1 > (samples.length : Int)) := by omega
    exact ⟨(hds.2.1 hn).1, (hds.2.1 hn).2, (hes.2.1 hn).1, (hes.2.1 hn).2⟩
  · intro hle
    have hn : ¬(r.cursor2 ≠ -1 ∧ r.cursor2 > (samples.length : Int)) := by omega
    exact ⟨(hds.2.2.2.1 hn).1, (hds.2.2.2.1 hn).2, (hes.2.2.2.1 hn).1, (hes.2.2.2.1 hn).2⟩
  · intro hle1 hle2
    exact ⟨hds.2.2.2.2.2.1 ⟨h1, by omega, h2, by omega⟩, hes.2.2.2.2.2.1⟩

/-- C10 witness: after removing the third of three markers the count is 2; a
row bound to orders 2 and 3 keeps the reference equal to the count and clears
only the reference strictly above it. -/
theorem C10_clear_only_above_count_witness :
    remove_marker [10, 20, 30] 3 = [10, 20] ∧
    (cursor_row_info.mk 2 3 0 (some "2") (some "3") (some "x")).cursor1 ≠ -1 ∧
    (cursor_row_info.mk 2 3 0 (some "2") (some "3") (some "x")).cursor2 ≠ -1 ∧
    (((update_dist_row [10, 20] (cursor_row_info.mk 2 3 0 (some "2") (some "3") (some "x"))).cursor1 = -1
        ↔ (cursor_row_info.mk 2 3 0 (some "2") (some "3") (some "x")).cursor1 > (([10, 20] : List Nat).length : Int)) ∧
    ((update_dist_row [10, 20] (cursor_row_info.mk 2 3 0 (some "2") (some "3") (some "x"))).cursor2 = -1
        ↔ (cursor_row_info.mk 2 3 0 (some "2") (some "3") (some "x")).cursor2 > (([10, 20] : List Nat).length : Int)) ∧
    ((update_edge_row [] [10, 20] (cursor_row_info.mk 2 3 0 (some "2") (some "3") (some "x"))).cursor1 = -1
        ↔ (cursor_row_info.mk 2 3 0 (some "2") (some "3") (some "x")).cursor1 > (([10, 20] : List Nat).length : Int)) ∧
    ((update_edge_row [] [10, 20] (cursor_row_info.mk 2 3 0 (some "2") (some "3") (some "x"))).cursor2 = -1
        ↔ (cursor_row_info.mk 2 3 0 (some "2") (some "3") (some "x")).cursor2 > (([10, 20] : List Nat).length : Int)) ∧
    ((cursor_row_info.mk 2 3 0 (some "2") (some "3") (some "x")).cursor1 > (([10, 20] : List Nat).length : Int) →
      (update_dist_row [10, 20] (cursor_row_info.mk 2 3 0 (some "2") (some "3") (some "x"))).startText = some "" ∧
      (update_edge_row [] [10, 20] (cursor_row_info.mk 2 3 0 (some "2") (some "3") (some "x"))).startText = some "") ∧
    ((cursor_row_info.mk 2 3 0 (some "2") (some "3") (some "x")).cursor2 > (([10, 20] : List Nat).length : Int) →
      (update_dist_row [10, 20] (cursor_row_info.mk 2 3 0 (some "2") (some "3") (some "x"))).endText = some "" ∧
      (update_edge_row [] [10, 20] (cursor_row_info.mk 2 3 0 (some "2") (some "3") (some "x"))).endText = some "") ∧
    ((cursor_row_info.mk 2 3 0 (some "2") (some "3") (some "x")).cursor1 ≤ (([10, 20] : List Nat).length : Int) →
      (update_dist_row [10, 20] (cursor_row_info.mk 2 3 0 (some "2") (some "3") (some "x"))).cursor1 =
        (cursor_row_info.mk 2 3 0 (some "2") (some "3") (some "x")).cursor1 ∧
      (update_dist_row [10, 20] (cursor_row_info.mk 2 3 0 (some "2") (some "3") (some "x"))).startText =
        (cursor_row_info.mk 2 3 0 (some "2") (some "3") (some "x")).startText ∧
      (update_edge_row [] [10, 20] (cursor_row_info.mk 2 3 0 (some "2") (some "3") (some "x"))).cursor1 =
        (cursor_row_info.mk 2 3 0 (some "2") (some "3") (some "x")).cursor1 ∧
      (update_edge_row [] [10, 20] (cursor_row_info.mk 2 3 0 (some "2") (some "3") (some "x"))).startText =
        (cursor_row_info.mk 2 3 0 (some "2") (some "3") (some "x")).startText) ∧
    ((cursor_row_info.mk 2 3 0 (some "2") (some "3") (some "x")).cursor2 ≤ (([10, 20] : List Nat).length : Int) →
      (update_dist_row [10, 20] (cursor_row_info.mk 2 3 0 (some "2") (some "3") (some "x"))).cursor2 =
        (cursor_row_info.mk 2 3 0 (some "2") (some "3") (some "x")).cursor2 ∧
      (update_dist_row [10, 20] (cursor_row_info.mk 2 3 0 (some "2") (some "3") (some "x"))).endText =
        (cursor_row_info.mk 2 3 0 (some "2") (some "3") (some "x")).endText ∧
      (update_edge_row [] [10, 20] (cursor_row_info.mk 2 3 0 (some "2") (some "3") (some "x"))).cursor2 =
        (cursor_row_info.mk 2 3 0 (some "2") (some "3") (some "x")).cursor2 ∧
      (update_edge_row [] [10, 20] (cursor_row_info.mk 2 3 0 (some "2") (some "3") (some "x"))).endText =
        (cursor_row_info.mk 2 3 0 (some "2") (some "3") (some "x")).endText) ∧
    ((cursor_row_info.mk 2 3 0 (some "2") (some "3") (some "x")).cursor1 ≤ (([10, 20] : List Nat).length : Int) →
      (cursor_row_info.mk 2 3 0 (some "2") (some "3") (some "x")).cursor2 ≤ (([10, 20] : List Nat).length : Int) →
      (update_dist_row [10, 20] (cursor_row_info.mk 2 3 0 (some "2") (some "3") (some "x"))).rText =
        some (dist_result [10, 20] (cursor_row_info.mk 2 3 0 (some "2") (some "3") (some "x")).cursor1
          (cursor_row_info.mk 2 3 0 (some "2") (some "3") (some "x")).cursor2) ∧
      (update_edge_row [] [10, 20] (cursor_row_info.mk 2 3 0 (some "2") (some "3") (some "x"))).rText =
        some (edge_result [] [10, 20] (cursor_row_info.mk 2 3 0 (some "2") (some "3") (some "x")).cursor1
          (cursor_row_info.mk 2 3 0 (some "2") (some "3") (some "x")).cursor2
          (cursor_row_info.mk 2 3 0 (some "2") (some "3") (some "x")).channelIndex))) :=
  ⟨rfl, by decide, by decide,
   C10_clear_only_above_count [] [10, 20]
     (cursor_row_info.mk 2 3 0 (some "2") (some "3") (some "x")) (by decide) (by decide)⟩

/-- C1 counterexample: markers sit at samples 10, 20 and 30; the marker with
display order 2 is removed, leaving two markers.  A distance row and an edge
row both referencing display order 2 in the start slot keep that reference
(2 is not greater than the new count 2), so the slot that referenced the
removed marker's display order is not reset to -1 as claimed. -/
theorem C1_counterexample :
    (update_dist (remove_marker [10, 20, 30] 2)
        [cursor_row_info.mk 2 (-1) 0 (some "2") (some "") (some " ")]).map
      (fun r => r.cursor1) = [2] ∧
    (update_edge [] (remove_marker [10, 20, 30] 2)
        [cursor_row_info.mk 2 (-1) 0 (some "2") (some "") (some "-/-/-")]).map
      (fun r => r.cursor1) = [2] ∧
    (2 : Int) ≠ -1 := by
  decide

/-- C1 (amended): after a marker removal, when the rows are updated against
the renumbered cursor list, every slot whose bound reference exceeds the new
cursor count is reset to -1 with its button text emptied and that row's
result reset to its placeholder; every other slot keeps its reference and
button text (a reference at or below the count afterwards denotes whichever
marker currently holds that display order), a row with an unset slot shows
its placeholder, and a row whose two references remain bound has its result
recomputed from the current marker list; the row lists keep their lengths.
This holds for every cursor list and every attached row list, hence for every
sequence of marker additions and removals. -/
theorem C1_marker_removal_cleanup (signals : List SignalM) (samples : List Nat)
    (drows erows : List cursor_row_info)
    (hd : ∀ r ∈ drows, r.startText ≠ none) (he : ∀ r ∈ erows, r.startText ≠ none) :
    (update_dist samples drows).length = drows.length ∧
    (update_edge signals samples erows).length = erows.length ∧
    (∀ i, i < drows.length →
      dist_cleanup_contract samples (drows.getD i blank_row)
        ((update_dist samples drows).getD i blank_row)) ∧
    (∀ i, i < erows.length →
      edge_cleanup_contract signals samples (erows.getD i blank_row)
        ((update_edge signals samples erows).getD i blank_row)) := by
  have hmd := update_dist_eq_map samples drows hd
  have hme := update_edge_eq_map signals samples erows he
  refine ⟨by rw [hmd]; simp, by rw [hme]; simp, ?_, ?_⟩
  · intro i hi
    rw [hmd, getD_map_row _ _ i hi]
    exact dist_row_update_spec samples _
  · intro i hi
    rw [hme, getD_map_row _ _ i hi]
    exact edge_row_update_spec signals samples _

/-- C1 witness: one attached distance row and one attached edge row, bound to
orders 3 and 2, updated against the two remaining markers: the contract holds
with the reference 3 cleared and the reference 2 retained. -/
theorem C1_marker_removal_cleanup_witness :
    (∀ r ∈ [cursor_row_info.mk 3 2 0 (some "3") (some "2") (some "x")], r.startText ≠ none) ∧
    ((update_dist [10, 20] [cursor_row_info.mk 3 2 0 (some "3") (some "2") (some "x")]).length = 1 ∧
     (update_edge [] [10, 20] [cursor_row_info.mk 3 2 0 (some "3") (some "2") (some "x")]).length = 1 ∧
     (∀ i, i < ([cursor_row_info.mk 3 2 0 (some "3") (some "2") (some "x")] : List cursor_row_info).length →
       dist_cleanup_contract [10, 20]
         (([cursor_row_info.mk 3 2 0 (some "3") (some "2") (some "x")] : List cursor_row_info).getD i blank_row)
         ((update_dist [10, 20] [cursor_row_info.mk 3 2 0 (some "3") (some "2") (some "x")]).getD i blank_row)) ∧
     (∀ i, i < ([cursor_row_info.mk 3 2 0 (some "3") (some "2") (some "x")] : List cursor_row_info).length →
       edge_cleanup_contract [] [10, 20]
         (([cursor_row_info.mk 3 2 0 (some "3") (some "2") (some "x")] : List cursor_row_info).getD i blank_row)
         ((update_edge [] [10, 20] [cursor_row_info.mk 3 2 0 (some "3") (some "2") (some "x")]).getD i blank_row))) :=
  ⟨by decide,
   C1_marker_removal_cleanup [] [10, 20]
     [cursor_row_info.mk 3 2 0 (some "3") (some "2") (some "x")]
     [cursor_row_info.mk 3 2 0 (some "3") (some "2") (some "x")]
     (by decide) (by decide)⟩

/-- C2: the code bug evaluated: with a base-initialized order of 0,
constructing Cursor(view, 5, 100) leaves the display order field at 0 instead
of the constructor argument 5, because the constructor body performs the
self-assignment instead of storing the argument. -/
theorem C2_cursor_order_not_initialized :
    (Cursor_construct 0 5 100)._order = 0 ∧ (Cursor_construct 0 5 100)._order ≠ 5 :=
  ⟨rfl, by decide⟩

/-- C5: for every distance row with at least one unset (-1) reference the
recomputation sets the cached result to the single-space placeholder, and for
every edge row with at least one unset reference to the dash placeholder; no
measurement is consulted. -/
theorem C5_unset_reference_placeholder (signals : List SignalM) (samples : List Nat)
    (r : cursor_row_info) (h : r.cursor1 = -1 ∨ r.cursor2 = -1) :
    (update_dist_row samples r).rText = some " " ∧
    (update_edge_row signals samples r).rText = some "-/-/-" := by
  rcases h with h | h <;>
    simp only [update_dist_row, update_edge_row, h] <;>
    split_ifs <;> simp_all

/-- C5 witness: the freshly added blank row has unset references and both
recomputations produce the placeholders. -/
theorem C5_unset_reference_placeholder_witness :
    (blank_row.cursor1 = -1 ∨ blank_row.cursor2 = -1) ∧
    ((update_dist_row [100, 200] blank_row).rText = some " " ∧
     (update_edge_row [] [100, 200] blank_row).rText = some "-/-/-") :=
  ⟨Or.inl rfl, C5_unset_reference_placeholder [] [100, 200] blank_row (Or.inl rfl)⟩

/-! Helper lemmas for claim C3: the wrapped delta and the glyph discipline of
the distance text. -/

theorem delta64_antisymm (s1 s2 : Nat)
    (hw : max s1 s2 - min s1 s2 < 9223372036854775808) :
    delta64 s1 s2 = -delta64 s2 s1 := by
  simp only [delta64, toInt64, usub64, U64] at *
  split_ifs <;> omega

theorem dist_result_data_of_nonneg (samples : List Nat) (a b : Int)
    (h : ¬ delta64 (get_cursor_samples samples (a - 1)) (get_cursor_samples samples (b - 1)) < 0) :
    (dist_result samples a b).data =
      '+' :: ((natDigits (max (get_cursor_samples samples (a - 1)) (get_cursor_samples samples (b - 1)) -
                  min (get_cursor_samples samples (a - 1)) (get_cursor_samples samples (b - 1))) ++ ['/']) ++
              natDigits (delta64 (get_cursor_samples samples (a - 1))
                  (get_cursor_samples samples (b - 1))).natAbs) := by
  simp only [dist_result, get_cm_delta, intStr, if_neg h]
  rfl

theorem dist_result_data_of_neg (samples : List Nat) (a b : Int)
    (h : delta64 (get_cursor_samples samples (a - 1)) (get_cursor_samples samples (b - 1)) < 0) :
    (dist_result samples a b).data =
      ('+' :: ((natDigits (max (get_cursor_samples samples (a - 1)) (get_cursor_samples samples (b - 1)) -
                   min (get_cursor_samples samples (a - 1)) (get_cursor_samples samples (b - 1))) ++ ['/']) ++
               ('-' :: natDigits (delta64 (get_cursor_samples samples (a - 1))
                   (get_cursor_samples samples (b - 1))).natAbs))).map
        (fun c => if c = '+' then '-' else c) := by
  simp only [dist_result, get_cm_delta, intStr, if_pos h, replaceChar]
  rfl

theorem dist_result_glyphs (samples : List Nat) (a b : Int) :
    sign_glyphs_ok
      (delta64 (get_cursor_samples samples (a - 1)) (get_cursor_samples samples (b - 1)))
      (dist_result samples a b) := by
  constructor
  · intro hpos
    have h : ¬ delta64 (get_cursor_samples samples (a - 1)) (get_cursor_samples samples (b - 1)) < 0 := by
      omega
    constructor
    · rw [dist_result_data_of_nonneg samples a b h]
      rfl
    · rw [dist_result_data_of_nonneg samples a b h]
      intro hmem
      simp only [List.mem_cons, List.mem_append, List.mem_singleton] at hmem
      rcases hmem with h1 | (h2 | h3) | h4
      · exact absurd h1 (by decide)
      · exact (natDigits_no_sign _ _ h2).2 rfl
      · exact absurd h3 (by decide)
      · exact (natDigits_no_sign _ _ h4).2 rfl
  · intro hneg
    constructor
    · rw [dist_result_data_of_neg samples a b hneg]
      simp
    · rw [dist_result_data_of_neg samples a b hneg]
      exact plus_not_mem_map_plus _

/-- C3 (amended): whenever the two bound cursors' sample positions differ by
fewer than 2^63 samples (so the uint64 difference does not wrap past the int64
range), the distance deltas for (a,b) and (b,a) have the same magnitude and
opposite sign, and each formatted result text obeys the sign-glyph discipline:
a leading plus and no minus for a positive delta, a leading minus and no plus
for a negative delta, never both glyph kinds together. -/
theorem C3_distance_antisymmetry_and_sign_glyphs (samples : List Nat) (a b : Int)
    (hw : max (get_cursor_samples samples (a - 1)) (get_cursor_samples samples (b - 1)) -
          min (get_cursor_samples samples (a - 1)) (get_cursor_samples samples (b - 1)) <
          9223372036854775808) :
    delta64 (get_cursor_samples samples (a - 1)) (get_cursor_samples samples (b - 1)) =
      -delta64 (get_cursor_samples samples (b - 1)) (get_cursor_samples samples (a - 1)) ∧
    sign_glyphs_ok
      (delta64 (get_cursor_samples samples (a - 1)) (get_cursor_samples samples (b - 1)))
      (dist_result samples a b) ∧
    sign_glyphs_ok
      (delta64 (get_cursor_samples samples (b - 1)) (get_cursor_samples samples (a - 1)))
      (dist_result samples b a) :=
  ⟨delta64_antisymm _ _ hw, dist_result_glyphs samples a b, dist_result_glyphs samples b a⟩

/-- C3 witness: the spec scenario with markers at samples 1000 and 5000. -/
theorem C3_distance_antisymmetry_and_sign_glyphs_witness :
    (max (get_cursor_samples [1000, 5000] (1 - 1)) (get_cursor_samples [1000, 5000] (2 - 1)) -
     min (get_cursor_samples [1000, 5000] (1 - 1)) (get_cursor_samples [1000, 5000] (2 - 1)) <
     9223372036854775808) ∧
    (delta64 (get_cursor_samples [1000, 5000] (1 - 1)) (get_cursor_samples [1000, 5000] (2 - 1)) =
      -delta64 (get_cursor_samples [1000, 5000] (2 - 1)) (get_cursor_samples [1000, 5000] (1 - 1)) ∧
    sign_glyphs_ok
      (delta64 (get_cursor_samples [1000, 5000] (1 - 1)) (get_cursor_samples [1000, 5000] (2 - 1)))
      (dist_result [1000, 5000] 1 2) ∧
    sign_glyphs_ok
      (delta64 (get_cursor_samples [1000, 5000] (2 - 1)) (get_cursor_samples [1000, 5000] (1 - 1)))
      (dist_result [1000, 5000] 2 1)) :=
  ⟨by decide, C3_distance_antisymmetry_and_sign_glyphs [1000, 5000] 1 2 (by decide)⟩

/-- C3 counterexample: with markers at samples 0 and 2^63, the uint64
difference wraps: both orderings produce the same negative int64 delta
-2^63, so the claimed opposite-sign relation fails on the code as written. -/
theorem C3_counterexample :
    ¬ (delta64 (get_cursor_samples [0, 9223372036854775808] (1 - 1))
         (get_cursor_samples [0, 9223372036854775808] (2 - 1)) =
       -delta64 (get_cursor_samples [0, 9223372036854775808] (2 - 1))
         (get_cursor_samples [0, 9223372036854775808] (1 - 1))) := by
  decide

/-! Helper lemmas for claim C4: symmetry of the edge computation. -/

theorem edges_comm (snap : Option (List Bool)) (a b : Nat) :
    edges snap a b = edges snap b a := by
  cases snap <;> simp [edges, Nat.min_comm, Nat.max_comm]

theorem edge_scan_comm (ch : Int) (a b : Nat) :
    ∀ signals : List SignalM, edge_scan signals ch a b = edge_scan signals ch b a := by
  intro signals
  induction signals with
  | nil => rfl
  | cons s rest ih =>
    simp only [edge_scan]
    rw [edges_comm]
    split_ifs with h
    · cases edges s.snapshot b a <;> simp [ih]
    · exact ih

theorem edge_result_comm (signals : List SignalM) (samples : List Nat) (a b ci : Int) :
    edge_result signals samples a b ci = edge_result signals samples b a ci := by
  simp only [edge_result]
  generalize (if a ≠ -1 ∧ a > ((samples.length : Int)) then (-1 : Int) else a) = ca
  generalize (if b ≠ -1 ∧ b > ((samples.length : Int)) then (-1 : Int) else b) = cb
  rw [edge_scan_comm]
  rw [if_congr and_comm rfl rfl]

/-- C4: edge counting is order independent: for every signal list, sample
list, channel selection and pair of references (a, b), the scan returns the
same rising and falling counts in either order, and swapping the two bound
references of an edge row leaves the computed result text unchanged. -/
theorem C4_edge_count_order_independent (signals : List SignalM) (samples : List Nat)
    (a b ci : Int) (st et rt : Option String) :
    (∀ (ch : Int) (x y : Nat), edge_scan signals ch x y = edge_scan signals ch y x) ∧
    (update_edge_row signals samples
        { cursor1 := a, cursor2 := b, channelIndex := ci,
          startText := st, endText := et, rText := rt }).rText =
      (update_edge_row signals samples
        { cursor1 := b, cursor2 := a, channelIndex := ci,
          startText := st, endText := et, rText := rt }).rText := by
  constructor
  · intro ch x y
    exact edge_scan_comm ch x y signals
  · rw [update_edge_row_rText, update_edge_row_rText]
    exact congrArg some (edge_result_comm signals samples a b ci)

/-! Helper lemma for claim C6: a channel with no usable signal makes the scan
fail. -/

theorem edge_scan_none (ch : Int) (a b : Nat) :
    ∀ signals : List SignalM,
      (∀ s ∈ signals, s.index = ch →
        s.enabled = false ∨ s.sigType ≠ sr_channel_type.LOGIC ∨ s.snapshot = none) →
      edge_scan signals ch a b = none := by
  intro signals
  induction signals with
  | nil => intro _; rfl
  | cons s rest ih =>
    intro h
    simp only [edge_scan]
    split_ifs with hs
    · rcases h s (List.mem_cons_self s rest) hs.2.2 with he | ht | hsnap
      · rw [hs.2.1] at he
        exact absurd he (by decide)
      · exact absurd hs.1 ht
      · rw [hsnap]
        simp only [edges]
        exact ih (fun s2 hm => h s2 (List.mem_cons_of_mem s hm))
    · exact ih (fun s2 hm => h s2 (List.mem_cons_of_mem s hm))

/-- C6: when every signal carrying the selected channel number is disabled,
not of logic kind, or has no snapshot (so the edge scan reports failure), the
edge row's recomputed result is exactly the dash placeholder, for every row
and every pair of marker positions. -/
theorem C6_unavailable_channel_placeholder (signals : List SignalM) (samples : List Nat)
    (r : cursor_row_info)
    (h : ∀ s ∈ signals, s.index = selected_channel (probe_list signals) r.channelIndex →
      s.enabled = false ∨ s.sigType ≠ sr_channel_type.LOGIC ∨ s.snapshot = none) :
    (update_edge_row signals samples r).rText = some "-/-/-" := by
  rw [update_edge_row_rText]
  simp only [edge_result]
  have hs : ∀ x y : Nat,
      edge_scan signals (selected_channel (probe_list signals) r.channelIndex) x y = none :=
    fun x y => edge_scan_none _ x y signals h
  split_ifs <;> simp [hs]

/-- C6 witness: an edge row fully bound to channel 1, whose only logic signal
has no snapshot: the result is the placeholder. -/
theorem C6_unavailable_channel_placeholder_witness :
    (∀ s ∈ [SignalM.mk sr_channel_type.LOGIC true 1 none],
      s.index = selected_channel
        (probe_list [SignalM.mk sr_channel_type.LOGIC true 1 none])
        (cursor_row_info.mk 1 2 0 (some "1") (some "2") (some "x")).channelIndex →
      s.enabled = false ∨ s.sigType ≠ sr_channel_type.LOGIC ∨ s.snapshot = none) ∧
    (update_edge_row [SignalM.mk sr_channel_type.LOGIC true 1 none] [5, 10]
        (cursor_row_info.mk 1 2 0 (some "1") (some "2") (some "x"))).rText = some "-/-/-" :=
  ⟨by decide,
   C6_unavailable_channel_placeholder [SignalM.mk sr_channel_type.LOGIC true 1 none] [5, 10]
     (cursor_row_info.mk 1 2 0 (some "1") (some "2") (some "x")) (by decide)⟩

/-- C7: under a positive samples-per-pixel factor, get_label_rect reports the
label visible exactly when the converted pixel offset index/(samplerate*scale)
lies within the closed window from x_offset to x_offset + width, and outside
that window it reports invisible together with the empty rectangle
(-1, -1, 0, 0). -/
theorem C7_label_visibility (samplerate scale : ℚ) (x_offset width : Int) (trig_hoff : ℚ)
    (index : Nat) (rectH textW textH padW padH : Int) (has_hoff : Bool)
    (hpos : 0 < samplerate * scale) :
    ((get_label_rect samplerate scale x_offset width trig_hoff index rectH textW textH padW padH has_hoff).1 = true
      ↔ ((x_offset : ℚ) ≤ (index : ℚ) / (samplerate * scale)
          ∧ (index : ℚ) / (samplerate * scale) ≤ (x_offset : ℚ) + (width : ℚ)))
    ∧ (¬((x_offset : ℚ) ≤ (index : ℚ) / (samplerate * scale)
          ∧ (index : ℚ) / (samplerate * scale) ≤ (x_offset : ℚ) + (width : ℚ))
        → get_label_rect samplerate scale x_offset width trig_hoff index rectH textW textH padW padH has_hoff
            = (false, { x := -1, y := -1, w := 0, h := 0 })) := by
  have _ := hpos
  constructor
  · simp only [get_label_rect]
    split_ifs with h
    · simp only [Bool.false_eq_true, false_iff, not_and_or, not_le]
      rcases h with h | h
      · exact Or.inl h
      · exact Or.inr h
    · push_neg at h
      simp only [true_iff]
      exact h
  · intro hout
    simp only [get_label_rect]
    split_ifs with h
    · rfl
    · push_neg at h
      exact absurd h hout

/-- C7 witness: a cursor at sample 5 with samplerate 1, scale 1, window from
0 to 10 is visible, and the positivity precondition holds. -/
theorem C7_label_visibility_witness :
    (0 : ℚ) < 1 * 1 ∧
    (((get_label_rect 1 1 0 10 0 5 100 4 3 1 2 true).1 = true
      ↔ (((0 : Int) : ℚ) ≤ (5 : ℚ) / (1 * 1)
          ∧ (5 : ℚ) / (1 * 1) ≤ ((0 : Int) : ℚ) + ((10 : Int) : ℚ)))
    ∧ (¬(((0 : Int) : ℚ) ≤ (5 : ℚ) / (1 * 1)
          ∧ (5 : ℚ) / (1 * 1) ≤ ((0 : Int) : ℚ) + ((10 : Int) : ℚ))
        → get_label_rect 1 1 0 10 0 5 100 4 3 1 2 true
            = (false, { x := -1, y := -1, w := 0, h := 0 }))) :=
  ⟨by norm_num, C7_label_visibility 1 1 0 10 0 5 100 4 3 1 2 true (by norm_num)⟩

/-- C8: for each row kind, add_dist_measure and add_edge_measure are no-ops at
the Max_Measure_Limits cap, and below the cap they append exactly the one
blank row, whose references are unset and whose channel index is 0. -/
theorem C8_add_row_cap (maxLimits : Nat) (drows erows : List cursor_row_info) :
    (drows.length = maxLimits → add_dist_measure maxLimits drows = drows) ∧
    (erows.length = maxLimits → add_edge_measure maxLimits erows = erows) ∧
    (drows.length < maxLimits → add_dist_measure maxLimits drows = drows ++ [blank_row]) ∧
    (erows.length < maxLimits → add_edge_measure maxLimits erows = erows ++ [blank_row]) ∧
    blank_row.cursor1 = -1 ∧ blank_row.cursor2 = -1 ∧ blank_row.channelIndex = 0 := by
  refine ⟨?_, ?_, ?_, ?_, rfl, rfl, rfl⟩ <;>
    intro h <;> simp [add_dist_measure, add_edge_measure, h]

/-- C8 witness: with a cap of 1, adding to a full one-row list changes
nothing, and adding to the empty list appends exactly the blank row. -/
theorem C8_add_row_cap_witness :
    (add_dist_measure 1 [blank_row] = [blank_row]) ∧
    (add_edge_measure 1 [blank_row] = [blank_row]) ∧
    (add_dist_measure 1 [] = [] ++ [blank_row]) ∧
    (add_edge_measure 1 [] = [] ++ [blank_row]) :=
  ⟨(C8_add_row_cap 1 [blank_row] [blank_row]).1 rfl,
   (C8_add_row_cap 1 [blank_row] [blank_row]).2.1 rfl,
   (C8_add_row_cap 1 [] []).2.2.1 (by decide),
   (C8_add_row_cap 1 [] []).2.2.2.1 (by decide)⟩

/-! Helper lemmas for claim C9: mode switching detaches and rebuilds. -/

theorem detach_item_idem (it : row_list_item) : detach_item (detach_item it) = detach_item it := by
  have hf : detach_row ∘ detach_row = detach_row := funext (fun r => rfl)
  simp [detach_item, List.map_map, hf]

theorem mode_item_reload_active (env : EnvM) (m : work_mode) (st : MeasureDockState) :
    mode_item m (reload m env st) = reload_item env m (mode_item m st) := by
  cases m <;> rfl

theorem mode_item_reload_other (env : EnvM) (m m2 : work_mode) (h : m2 ≠ m)
    (st : MeasureDockState) :
    mode_item m2 (reload m env st) = detach_item (mode_item m2 st) := by
  cases m <;> cases m2 <;>
    first
      | exact absurd rfl h
      | simp [reload, reCalc, update_cursor_info_state, update_edge_state, update_dist_state,
          build_cursor_pannel, build_edge_pannel, build_dist_pannel, get_mode_rows,
          set_mode_item, mode_item, detach_item_idem]

theorem build_dist_row_cursor1 (r : cursor_row_info) : (build_dist_row r).cursor1 = r.cursor1 := rfl

theorem build_dist_row_cursor2 (r : cursor_row_info) : (build_dist_row r).cursor2 = r.cursor2 := rfl

theorem build_dist_row_channelIndex (r : cursor_row_info) :
    (build_dist_row r).channelIndex = r.channelIndex := rfl

theorem build_edge_row_cursor1 (r : cursor_row_info) : (build_edge_row r).cursor1 = r.cursor1 := rfl

theorem build_edge_row_cursor2 (r : cursor_row_info) : (build_edge_row r).cursor2 = r.cursor2 := rfl

theorem build_edge_row_channelIndex (r : cursor_row_info) :
    (build_edge_row r).channelIndex = r.channelIndex := rfl

theorem detach_row_cursor1 (r : cursor_row_info) : (detach_row r).cursor1 = r.cursor1 := rfl

theorem detach_row_cursor2 (r : cursor_row_info) : (detach_row r).cursor2 = r.cursor2 := rfl

theorem detach_row_channelIndex (r : cursor_row_info) :
    (detach_row r).channelIndex = r.channelIndex := rfl

theorem row_refs_detach (r : cursor_row_info) : row_refs (detach_row r) = row_refs r := rfl

theorem item_refs_detach (it : row_list_item) : item_refs (detach_item it) = item_refs it := by
  simp only [item_refs, detach_item, List.map_map]
  rfl

theorem update_dist_map_build (cs : List Nat) (l : List cursor_row_info) :
    update_dist cs (l.map build_dist_row) =
      l.map (fun r => update_dist_row cs (build_dist_row r)) := by
  rw [update_dist_eq_map, List.map_map]
  · rfl
  · intro r hr
    rcases List.mem_map.mp hr with ⟨x, _, rfl⟩
    simp [build_dist_row]

theorem update_edge_map_build (signals : List SignalM) (cs : List Nat)
    (l : List cursor_row_info) :
    update_edge signals cs (l.map build_edge_row) =
      l.map (fun r => update_edge_row signals cs (build_edge_row r)) := by
  rw [update_edge_eq_map, List.map_map]
  · rfl
  · intro r hr
    rcases List.mem_map.mp hr with ⟨x, _, rfl⟩
    simp [build_edge_row]

theorem dist_row_roundtrip (cs : List Nat) (r : cursor_row_info) :
    row_data (update_dist_row cs (build_dist_row (detach_row (update_dist_row cs (build_dist_row r))))) =
      row_data (update_dist_row cs (build_dist_row r)) := by
  simp only [row_data, update_dist_row_cursor1, update_dist_row_cursor2,
    update_dist_row_channelIndex, update_dist_row_rText,
    build_dist_row_cursor1, build_dist_row_cursor2, build_dist_row_channelIndex,
    detach_row_cursor1, detach_row_cursor2, detach_row_channelIndex, Prod.mk.injEq]
  refine ⟨?_, ?_, ?_, ?_⟩ <;>
    first
      | trivial
      | (split_ifs <;> rfl)

theorem edge_result_precleared (signals : List SignalM) (cs : List Nat) (a b ci : Int) :
    edge_result signals cs (if a ≠ -1 ∧ a > (cs.length : Int) then -1 else a)
      (if b ≠ -1 ∧ b > (cs.length : Int) then -1 else b) ci =
    edge_result signals cs a b ci := by
  simp only [edge_result]
  split_ifs <;> rfl

theorem edge_row_roundtrip (signals : List SignalM) (cs : List Nat) (r : cursor_row_info) :
    row_data (update_edge_row signals cs
        (build_edge_row (detach_row (update_edge_row signals cs (build_edge_row r))))) =
      row_data (update_edge_row signals cs (build_edge_row r)) := by
  simp only [row_data, update_edge_row_cursor1, update_edge_row_cursor2,
    update_edge_row_channelIndex, update_edge_row_rText,
    build_edge_row_cursor1, build_edge_row_cursor2, build_edge_row_channelIndex,
    detach_row_cursor1, detach_row_cursor2, detach_row_channelIndex, Prod.mk.injEq]
  refine ⟨?_, ?_, ?_, congrArg some (edge_result_precleared signals cs r.cursor1 r.cursor2 r.channelIndex)⟩ <;>
    first
      | trivial
      | (split_ifs <;> rfl)

theorem reload_item_roundtrip_data (env : EnvM) (m : work_mode) (it : row_list_item) :
    item_data (reload_item env m (detach_item (reload_item env m it))) =
      item_data (reload_item env m it) := by
  simp only [item_data, reload_item, detach_item]
  rw [update_dist_map_build, update_dist_map_build, update_edge_map_build,
    update_edge_map_build]
  simp only [List.map_map, Prod.mk.injEq]
  constructor
  · apply List.map_congr_left
    intro r _
    simp only [Function.comp_apply]
    exact dist_row_roundtrip (env.cursors m) r
  · apply List.map_congr_left
    intro r _
    simp only [Function.comp_apply]
    exact edge_row_roundtrip env.signals (env.cursors m) r

/-- C9: switching the active acquisition mode from A to B and back (with the
marker registries and signal list unchanged) preserves each mode's
measurement rows observably: A's distance and edge rows carry the same bound
references, channel indexes and result texts as when A was left; while B is
inactive its references and channel indexes are preserved verbatim (only the
presentation bindings are detached), and reactivating B rebuilds its rows
with the same references and result texts it had when it was active. -/
theorem C9_mode_switch_preserves_rows (env : EnvM) (A B : work_mode) (hAB : A ≠ B)
    (st0 : MeasureDockState) :
    item_data (mode_item A (reload A env (reload B env (reload A env st0)))) =
      item_data (mode_item A (reload A env st0)) ∧
    item_refs (mode_item B (reload A env (reload B env (reload A env st0)))) =
      item_refs (mode_item B (reload B env (reload A env st0))) ∧
    item_data (mode_item B (reload B env (reload A env (reload B env (reload A env st0))))) =
      item_data (mode_item B (reload B env (reload A env st0))) := by
  have hBA : B ≠ A := fun h => hAB h.symm
  refine ⟨?_, ?_, ?_⟩
  · rw [mode_item_reload_active, mode_item_reload_other env B A hAB,
      mode_item_reload_active]
    exact reload_item_roundtrip_data env A (mode_item A st0)
  · rw [mode_item_reload_other env A B hBA]
    exact item_refs_detach _
  · rw [mode_item_reload_active, mode_item_reload_other env A B hBA,
      mode_item_reload_active]
    exact reload_item_roundtrip_data env B (mode_item B (reload A env st0))

/-- C9 witness: the concrete two-mode scenario: logic mode with two markers
and two rows, oscilloscope mode with one marker and one row; the round trip
LOGIC to DSO to LOGIC preserves everything as stated. -/
theorem C9_mode_switch_preserves_rows_witness :
    work_mode.LOGIC ≠ work_mode.DSO ∧
    (item_data (mode_item work_mode.LOGIC
        (reload work_mode.LOGIC env_witness (reload work_mode.DSO env_witness
          (reload work_mode.LOGIC env_witness st_witness)))) =
      item_data (mode_item work_mode.LOGIC (reload work_mode.LOGIC env_witness st_witness)) ∧
    item_refs (mode_item work_mode.DSO
        (reload work_mode.LOGIC env_witness (reload work_mode.DSO env_witness
          (reload work_mode.LOGIC env_witness st_witness)))) =
      item_refs (mode_item work_mode.DSO
        (reload work_mode.DSO env_witness (reload work_mode.LOGIC env_witness st_witness))) ∧
    item_data (mode_item work_mode.DSO
        (reload work_mode.DSO env_witness (reload work_mode.LOGIC env_witness
          (reload work_mode.DSO env_witness (reload work_mode.LOGIC env_witness st_witness))))) =
      item_data (mode_item work_mode.DSO
        (reload work_mode.DSO env_witness (reload work_mode.LOGIC env_witness st_witness)))) :=
  ⟨by decide,
   C9_mode_switch_preserves_rows env_witness work_mode.LOGIC work_mode.DSO
     (by decide) st_witness⟩

end DSView
